import Mathlib

/-!
Verification of the backend process supervisor and API proxy command found in
`frontend/src-tauri/src/main.rs`.

The Rust source is shallowly embedded: JSON values (`serde_json::Value`) become
the inductive `Json`; the global state (`BACKEND_STARTED`, `BACKEND_PROCESS`)
becomes the record `BackendState`; the effectful functions `start_backend`,
`cleanup_backend` and `call_backend_api` become pure state-passing functions
parameterised by an environment record that fixes the outcomes of the external
probes, the filesystem existence checks, the process spawn, and the HTTP
exchange.  The list of emitted `Event`s records which observable actions
(health probe, process spawn, re-probe) a run performs.
-/

namespace BendBionics

/-- `serde_json::Value`: JSON values.  Objects are association lists with
distinct keys (serde maps); numbers are modelled as integers, which covers
every value the claims mention. -/
inductive Json where
  | null : Json
  | bool : Bool → Json
  | num : Int → Json
  | str : String → Json
  | arr : List Json → Json
  | obj : List (String × Json) → Json

/-- `Value::get(key)`: on an object, the value stored under `key` (the first
matching entry; serde maps have distinct keys); `None` otherwise. -/
def Json.get : Json → String → Option Json
  | .obj fields, key => (fields.find? (fun kv => kv.1 == key)).map (fun kv => kv.2)
  | _, _ => none

/-- `Value::as_str()`: the string content when the value is a string. -/
def Json.asStr : Json → Option String
  | .str s => some s
  | _ => none

/-- `value.as_object_mut().and_then(|obj| obj.remove(key))`: removes the entry
under `key` from an object; any non-object value is left unchanged (the Rust
`as_object_mut` returns `None` there, so `remove` never runs). -/
def Json.removeKey : Json → String → Json
  | .obj fields, key => .obj (fields.filter (fun kv => kv.1 != key))
  | j, _ => j

/-- The HTTP verb chosen for the proxied request. -/
inductive Method where
  | GET : Method
  | POST : Method
  | PUT : Method
  | DELETE : Method
deriving Repr, DecidableEq

/-- `token.trim_matches('"')`: strip every leading and trailing double-quote
character from the token. -/
def trimMatchesQuote (s : String) : String :=
  String.mk (((s.toList.dropWhile (fun c => c == '"')).reverse.dropWhile
    (fun c => c == '"')).reverse)

/-- The observable content of the single HTTP request `call_backend_api`
builds: its URL, verb, JSON body (when one is attached via `.json(..)`), and
the value of the `Authorization` header when one is attached. -/
structure HttpRequest where
  url : String
  method : Method
  body : Option Json
  authHeader : Option String

/-- The loopback base address every proxied request targets. -/
def baseUrl : String := "http://127.0.0.1:8000"

/-- `request_data.get("_method").and_then(|v| v.as_str())`: the method
override string extracted from a payload. -/
def methodOverride (d : Json) : Option String :=
  (d.get "_method").bind Json.asStr

/-- The request-construction slice of `call_backend_api` (main.rs lines
174–235): verb selection from the `_method` override, stripping of the
override key, body attachment (DELETE and GET send none), and resolution of
the bearer token from the two caller-supplied parameters. -/
def buildRequest (endpoint : String) (data : Option Json)
    (authToken tokenAlt : Option String) : HttpRequest :=
  let url := baseUrl ++ endpoint
  let overrideStr : Option String := data.bind methodOverride
  let cleanData : Option Json := data.map (fun d => d.removeKey "_method")
  let method : Method :=
    match data with
    | none => .GET
    | some _ =>
      if overrideStr = some "DELETE" then .DELETE
      else if overrideStr = some "PUT" then .PUT
      else .POST
  let body : Option Json :=
    if overrideStr = some "DELETE" then none
    else if overrideStr = some "PUT" then cleanData
    else cleanData
  let tokenToUse : Option String := authToken.or tokenAlt
  let authHeader := tokenToUse.map (fun tok => "Bearer " ++ trimMatchesQuote tok)
  ⟨url, method, body, authHeader⟩

/-- The process-wide supervisor state: `BACKEND_STARTED` (the "already
confirmed" flag) and `BACKEND_PROCESS` (the owned child-process handle,
abstracted as an identifier). -/
structure BackendState where
  started : Bool
  handle : Option Nat
deriving Repr, DecidableEq

/-- The spec's lifecycle phase, as readable from the code's state: the
confirmed flag unset means `NotStarted`. -/
inductive Phase where
  | NotStarted : Phase
  | Running : Phase
deriving Repr, DecidableEq

/-- The lifecycle phase encoded by a supervisor state. -/
def BackendState.phase (s : BackendState) : Phase :=
  if s.started then .Running else .NotStarted

/-- Observable actions a `start_backend` run performs: the initial health
probe of `/pcc`, spawning the child process from a directory, and the
post-launch re-probe. -/
inductive Event where
  | probe : Event
  | spawn : String → Event
  | reprobe : Event
deriving Repr, DecidableEq

/-- The environment a `start_backend` run executes in: the current directory
and its parent, whether the initial health probe succeeds, which filesystem
paths exist, the result of spawning the child process, and the transport
error of the post-launch re-probe when it fails (`none` = re-probe got a
response). -/
structure Env where
  cwd : String
  parentDir : String
  probeOk : Bool
  pathExists : String → Bool
  spawnResult : Except String Nat
  reprobeErr : Option String

/-- The candidate backend directories of main.rs lines 42–57, in source
order: bundled resources, parent of the current directory, the current
directory, and the explicit `../backend` relative path. -/
def candidatePaths (cwd parentDir : String) : List String :=
  [cwd ++ "/Contents/Resources/backend",
   parentDir ++ "/backend",
   cwd ++ "/backend",
   cwd ++ "/../backend"]

/-- The error text when no candidate backend directory exists. -/
def backendNotFoundMsg : String :=
  "Backend directory not found. Please ensure the backend folder exists."

/-- `start_backend` (main.rs lines 23–122): fast path on the confirmed flag,
initial health probe, candidate-directory search, child spawn (the handle is
stored and the confirmed flag is set immediately after the spawn, before the
re-probe), settle wait, and post-launch re-probe.  Returns the Rust
`Result<(), String>`, the updated global state, and the emitted events. -/
def start_backend (env : Env) (s : BackendState) :
    Except String Unit × BackendState × List Event :=
  if s.started then (.ok (), s, [])
  else if env.probeOk then (.ok (), { s with started := true }, [.probe])
  else
    match (candidatePaths env.cwd env.parentDir).find? env.pathExists with
    | none => (.error backendNotFoundMsg, s, [.probe])
    | some dir =>
      match env.spawnResult with
      | .error e =>
        (.error ("Failed to start backend: " ++ e ++
          ". Make sure Python and uvicorn are installed."), s, [.probe, .spawn dir])
      | .ok child =>
        let s1 : BackendState := ⟨true, some child⟩
        match env.reprobeErr with
        | none => (.ok (), s1, [.probe, .spawn dir, .reprobe])
        | some e =>
          (.error ("Backend server is not responding: " ++ e), s1,
           [.probe, .spawn dir, .reprobe])

/-- `cleanup_backend` (main.rs lines 125–136): if a child handle is owned,
kill and wait on it; in every case clear the handle and reset the confirmed
flag.  The boolean records whether a kill was attempted. -/
def cleanup_backend (s : BackendState) : BackendState × Bool :=
  match s.handle with
  | some _ => (⟨false, none⟩, true)
  | none => (⟨false, none⟩, false)

/-- The result `call_backend_api` normalises every call outcome into
(`ApiResponse` in main.rs lines 11–16). -/
structure ApiResponse where
  success : Bool
  data : Option Json
  error : Option String

/-- The outcome of the single HTTP exchange a call performs: a transport
error, or a response carrying its `is_success` classification, the display
text of its status, the result of parsing its body as JSON, and the
best-effort text read of its body (`none` = unreadable, which
`unwrap_or_default` turns into the empty string). -/
inductive HttpOutcome where
  | transportError : String → HttpOutcome
  | response : Bool → String → Except String Json → Option String → HttpOutcome

/-- The response-handling tail of `call_backend_api` (main.rs lines 237–264).
`Except.error` is the Rust `Err(String)` of the command — a fault delivered
to the invoking layer, not a normalised `ApiResponse`.  Note the success
branch propagates a JSON parse failure with `?`. -/
def handleResponse : HttpOutcome → Except String ApiResponse
  | .transportError e => .ok ⟨false, none, some e⟩
  | .response isSuccess statusText parsed bodyText =>
    if isSuccess then
      match parsed with
      | .ok v => .ok ⟨true, some v, none⟩
      | .error e => .error e
    else
      .ok ⟨false, none, some ("HTTP " ++ statusText ++ ": " ++ bodyText.getD "")⟩

/-- The environment of one `call_backend_api` invocation: the supervisor
environment plus the outcome of the HTTP exchange, should one be sent. -/
structure CallEnv where
  env : Env
  outcome : HttpOutcome

/-- The error wrapper used when `start_backend` fails inside a call. -/
def backendUnavailableMsg (e : String) : String :=
  "Backend server is not available. Error: " ++ e

/-- `call_backend_api` (main.rs lines 139–265): ensure the backend is
running (failure is normalised into an `ApiResponse` with the
backend-unavailable wrapper), build the one HTTP request, and normalise the
exchange's outcome.  Returns the command result, the updated supervisor
state, and the request that was sent (`none` when none was). -/
def call_backend_api (cenv : CallEnv) (s : BackendState) (endpoint : String)
    (data : Option Json) (authToken tokenAlt : Option String) :
    Except String ApiResponse × BackendState × Option HttpRequest :=
  match start_backend cenv.env s with
  | (.error e, s1, _) =>
    (.ok ⟨false, none, some (backendUnavailableMsg e)⟩, s1, none)
  | (.ok _, s1, _) =>
    (handleResponse cenv.outcome, s1, some (buildRequest endpoint data authToken tokenAlt))

/-! ### Helper lemmas -/

/-- Filtering out a key removes every entry the key lookup could find. -/
theorem find?_filter_key_none (fields : List (String × Json)) (k : String) :
    (fields.filter (fun kv => kv.1 != k)).find? (fun kv => kv.1 == k) = none := by
  rw [List.find?_eq_none]
  intro x hx
  have h2 := (List.mem_filter.mp hx).2
  simp only [bne_iff_ne, ne_eq] at h2
  simp [h2]

/-- When the key lookup finds nothing, filtering out the key keeps the list. -/
theorem filter_key_of_find?_none (fields : List (String × Json)) (k : String)
    (h : fields.find? (fun kv => kv.1 == k) = none) :
    fields.filter (fun kv => kv.1 != k) = fields := by
  rw [List.filter_eq_self]
  intro a ha
  have h2 := List.find?_eq_none.mp h a ha
  simp only [beq_iff_eq] at h2
  simp [h2]

/-- After `removeKey`, the key is no longer present. -/
theorem get_removeKey (d : Json) (k : String) : (d.removeKey k).get k = none := by
  cases d <;> simp [Json.removeKey, Json.get, find?_filter_key_none]

/-- `removeKey` leaves a value that does not contain the key unchanged. -/
theorem removeKey_of_get_none (d : Json) (k : String) (h : d.get k = none) :
    d.removeKey k = d := by
  cases d <;> simp [Json.removeKey]
  case obj fields =>
    simp only [Json.get, Option.map_eq_none'] at h
    intro a b hab
    have h2 := List.find?_eq_none.mp h (a, b) hab
    simpa using h2

/-- A successful `start_backend` run always leaves the confirmed flag set. -/
theorem start_backend_ok_started (env : Env) (s : BackendState)
    (h : (start_backend env s).1 = .ok ()) :
    (start_backend env s).2.1.started = true := by
  by_cases hs : s.started = true
  · simp [start_backend, hs]
  · by_cases hp : env.probeOk = true
    · simp [start_backend, hs, hp]
    · rcases hfind : (candidatePaths env.cwd env.parentDir).find? env.pathExists with _ | dir
      · simp [start_backend, hs, hp, hfind] at h
      · rcases hspawn : env.spawnResult with e | child
        · simp [start_backend, hs, hp, hfind, hspawn] at h
        · rcases hre : env.reprobeErr with _ | e
          · simp [start_backend, hs, hp, hfind, hspawn, hre]
          · simp [start_backend, hs, hp, hfind, hspawn, hre] at h

/-! ### C3: DELETE override -/

/-- The payload of C3's worked example: `{"_method":"DELETE","id":5}`. -/
def payloadDelete : Json := .obj [("_method", .str "DELETE"), ("id", .num 5)]

/-- C3 counterexample: with payload `{"_method":"DELETE","id":5}` the verb is
DELETE, but the transmitted request carries no body at all — not the
override-stripped payload `{"id":5}` the claim asserts (the DELETE branch of
`call_backend_api` sends the request without attaching a JSON body). -/
theorem C3_counterexample :
    (buildRequest "/items" (some payloadDelete) none none).method = Method.DELETE ∧
    (buildRequest "/items" (some payloadDelete) none none).body = none ∧
    (buildRequest "/items" (some payloadDelete) none none).body ≠
      some (Json.obj [("id", Json.num 5)]) :=
  ⟨rfl, rfl, fun h => Option.noConfusion h⟩

/-- C3 (amended): for every call whose payload contains the method-override
key with value "DELETE", the HTTP method used is DELETE and no request body
is transmitted (the override-stripped payload copy is discarded by the
DELETE send branch). -/
theorem C3_delete_sends_no_body (endpoint : String) (d : Json)
    (authToken tokenAlt : Option String) (h : methodOverride d = some "DELETE") :
    (buildRequest endpoint (some d) authToken tokenAlt).method = Method.DELETE ∧
    (buildRequest endpoint (some d) authToken tokenAlt).body = none := by
  simp [buildRequest, h]

/-- C3 witness: the amended theorem at the claim's own example payload. -/
theorem C3_witness :
    (buildRequest "/items" (some payloadDelete) none none).method = Method.DELETE ∧
    (buildRequest "/items" (some payloadDelete) none none).body = none :=
  C3_delete_sends_no_body "/items" payloadDelete none none rfl

/-! ### C4: bearer-token precedence -/

/-- C4 counterexample: with `authToken = some ""` (present but empty) and
`altToken = some "xyz"`, the code still uses the empty first token — the
header is `Bearer ` with an empty credential, not `Bearer xyz` as the
claim's "present and non-empty" precedence rule requires
(`auth_token.as_ref().or(token.as_ref())` never checks emptiness). -/
theorem C4_counterexample :
    (buildRequest "/x" none (some "") (some "xyz")).authHeader = some "Bearer " ∧
    (buildRequest "/x" none (some "") (some "xyz")).authHeader ≠ some "Bearer xyz" := by
  refine ⟨rfl, ?_⟩
  intro h
  simp [buildRequest, trimMatchesQuote, Option.or] at h

/-- C4 (amended): the effective bearer credential is `authToken` whenever it
is present (even when empty), otherwise `altToken` when present, otherwise no
Authorization header is attached; the used token has wrapping quote
characters stripped, and with `authToken="abc"`, `altToken="xyz"` the
transmitted credential is "abc". -/
theorem C4_token_precedence (endpoint : String) (data : Option Json) :
    (∀ (x : String) (tokenAlt : Option String),
      (buildRequest endpoint data (some x) tokenAlt).authHeader =
        some ("Bearer " ++ trimMatchesQuote x)) ∧
    (∀ y : String,
      (buildRequest endpoint data none (some y)).authHeader =
        some ("Bearer " ++ trimMatchesQuote y)) ∧
    (buildRequest endpoint data none none).authHeader = none ∧
    (buildRequest endpoint data (some "abc") (some "xyz")).authHeader =
      some "Bearer abc" := by
  refine ⟨?_, ?_, ?_, ?_⟩
  · intro x tokenAlt
    simp [buildRequest, Option.or]
  · intro y
    simp [buildRequest, Option.or]
  · simp [buildRequest, Option.or]
  · simp [buildRequest, Option.or]
    rfl

/-! ### C6: HTTP method determination -/

/-- C6: the method is GET with no payload; DELETE or PUT when the payload's
override key holds that string; POST when the override is absent or holds any
other value; and a payload lacking the override key is sent unmodified as the
POST body. -/
theorem C6_method_determination (endpoint : String) (authToken tokenAlt : Option String) :
    (buildRequest endpoint none authToken tokenAlt).method = Method.GET ∧
    (∀ d : Json, methodOverride d = some "DELETE" →
      (buildRequest endpoint (some d) authToken tokenAlt).method = Method.DELETE) ∧
    (∀ d : Json, methodOverride d = some "PUT" →
      (buildRequest endpoint (some d) authToken tokenAlt).method = Method.PUT) ∧
    (∀ d : Json, methodOverride d ≠ some "DELETE" → methodOverride d ≠ some "PUT" →
      (buildRequest endpoint (some d) authToken tokenAlt).method = Method.POST) ∧
    (∀ d : Json, d.get "_method" = none →
      (buildRequest endpoint (some d) authToken tokenAlt).method = Method.POST ∧
      (buildRequest endpoint (some d) authToken tokenAlt).body = some d) := by
  refine ⟨rfl, ?_, ?_, ?_, ?_⟩
  · intro d h
    simp [buildRequest, h]
  · intro d h
    simp [buildRequest, h]
  · intro d h1 h2
    simp [buildRequest, h1, h2]
  · intro d hget
    have ho : methodOverride d = none := by simp [methodOverride, hget]
    have hrk : d.removeKey "_method" = d := removeKey_of_get_none d "_method" hget
    simp [buildRequest, ho, hrk]

/-- C6 witness: the claim theorem instantiated at the spec's worked examples
(`/status` with no payload, a PUT override, and `{"name":"x"}`). -/
theorem C6_witness :
    (buildRequest "/status" none none none).method = Method.GET ∧
    (buildRequest "/status" (some (Json.obj [("_method", Json.str "PUT")]))
      none none).method = Method.PUT ∧
    (buildRequest "/status" (some (Json.obj [("name", Json.str "x")]))
      none none).method = Method.POST ∧
    (buildRequest "/status" (some (Json.obj [("name", Json.str "x")]))
      none none).body = some (Json.obj [("name", Json.str "x")]) :=
  ⟨(C6_method_determination "/status" none none).1,
   (C6_method_determination "/status" none none).2.2.1 _ rfl,
   ((C6_method_determination "/status" none none).2.2.2.2
     (Json.obj [("name", Json.str "x")]) rfl).1,
   ((C6_method_determination "/status" none none).2.2.2.2
     (Json.obj [("name", Json.str "x")]) rfl).2⟩

/-! ### C10: unrecognized override values are stripped -/

/-- C10: a payload object carrying the `_method` key with any value other
than the strings "DELETE" and "PUT" (including non-string values) is sent as
POST, and the `_method` key is nevertheless removed from the transmitted
body. -/
theorem C10_unrecognized_override (endpoint : String) (authToken tokenAlt : Option String)
    (fields : List (String × Json)) (v : Json)
    (hget : (Json.obj fields).get "_method" = some v)
    (hne1 : v.asStr ≠ some "DELETE") (hne2 : v.asStr ≠ some "PUT") :
    (buildRequest endpoint (some (Json.obj fields)) authToken tokenAlt).method =
      Method.POST ∧
    (buildRequest endpoint (some (Json.obj fields)) authToken tokenAlt).body =
      some ((Json.obj fields).removeKey "_method") ∧
    ((Json.obj fields).removeKey "_method").get "_method" = none := by
  have ho : methodOverride (Json.obj fields) = v.asStr := by
    simp [methodOverride, hget]
  refine ⟨?_, ?_, get_removeKey _ _⟩
  · rcases hv : v.asStr with _ | s
    · rw [hv] at ho
      simp [buildRequest, ho]
    · rw [hv] at ho
      have hs1 : s ≠ "DELETE" := fun hh => hne1 (by rw [hv, hh])
      have hs2 : s ≠ "PUT" := fun hh => hne2 (by rw [hv, hh])
      simp [buildRequest, ho, hs1, hs2]
  · rcases hv : v.asStr with _ | s
    · rw [hv] at ho
      simp [buildRequest, ho]
    · rw [hv] at ho
      have hs1 : s ≠ "DELETE" := fun hh => hne1 (by rw [hv, hh])
      simp [buildRequest, ho, hs1]

/-- C10 witness: a payload `{"_method":"PATCH","id":1}` is sent as POST with
the `_method` key stripped. -/
theorem C10_witness :
    (buildRequest "/w" (some (Json.obj [("_method", Json.str "PATCH"), ("id", Json.num 1)]))
      none none).method = Method.POST ∧
    (buildRequest "/w" (some (Json.obj [("_method", Json.str "PATCH"), ("id", Json.num 1)]))
      none none).body =
      some ((Json.obj [("_method", Json.str "PATCH"), ("id", Json.num 1)]).removeKey
        "_method") ∧
    ((Json.obj [("_method", Json.str "PATCH"), ("id", Json.num 1)]).removeKey
      "_method").get "_method" = none :=
  C10_unrecognized_override "/w" none none
    [("_method", Json.str "PATCH"), ("id", Json.num 1)] (Json.str "PATCH")
    rfl (by decide) (by decide)

/-! ### Concrete environments for witnesses and counterexamples -/

/-- An environment whose initial health probe answers (an externally started
backend): no launch is ever needed. -/
def envProbeOk : Env :=
  ⟨"/app", "/", true, fun _ => false, .error "unused", none⟩

/-- An environment where the probe fails, `/home/backend` (the
parent-of-current-directory candidate) exists, the spawn yields child 7, and
the post-launch re-probe fails with a connection error. -/
def envLaunchFail : Env :=
  ⟨"/home/app", "/home", false, fun p => p == "/home/backend", .ok 7,
   some "connection refused"⟩

/-- An environment where the probe fails and no candidate directory exists. -/
def envNotFound : Env :=
  ⟨"/a", "/b", false, fun _ => false, .error "unused", none⟩

/-! ### C2: flag state after a failed post-launch re-probe -/

/-- C2 counterexample: starting from the unconfirmed state, with a failing
initial probe, an existing candidate directory, a successful spawn and a
failing re-probe, `start_backend` does report the startup failure — but the
confirmed flag is `true` (it is stored before the re-probe), and the very
next invocation takes the fast path, returning success with no probe, no
launch and no re-probe, contradicting the claimed re-attempt of the full
sequence. -/
theorem C2_counterexample :
    (start_backend envLaunchFail ⟨false, none⟩).1 =
      .error "Backend server is not responding: connection refused" ∧
    (start_backend envLaunchFail ⟨false, none⟩).2.1.started = true ∧
    start_backend envLaunchFail (start_backend envLaunchFail ⟨false, none⟩).2.1 =
      (.ok (), ⟨true, some 7⟩, []) :=
  ⟨rfl, rfl, rfl⟩

/-- C2 (amended): when the backend process was launched but the post-launch
re-probe fails, `start_backend` reports the startup failure with the
underlying transport error, but the "already confirmed" flag was already set
before the re-probe and remains set, so a subsequent call takes the fast
path — it returns success immediately and performs no probe, launch or
re-probe. -/
theorem C2_flag_set_despite_failure (env envNext : Env) (s : BackendState)
    (hs : s.started = false) (hp : env.probeOk = false) (dir : String)
    (hfind : (candidatePaths env.cwd env.parentDir).find? env.pathExists = some dir)
    (child : Nat) (hspawn : env.spawnResult = .ok child)
    (e : String) (hre : env.reprobeErr = some e) :
    (start_backend env s).1 = .error ("Backend server is not responding: " ++ e) ∧
    (start_backend env s).2.1.started = true ∧
    start_backend envNext (start_backend env s).2.1 =
      (.ok (), (start_backend env s).2.1, []) := by
  simp [start_backend, hs, hp, hfind, hspawn, hre]

/-- C2 witness: the amended theorem at the concrete failing environment. -/
theorem C2_witness :
    (start_backend envLaunchFail ⟨false, none⟩).1 =
      .error ("Backend server is not responding: " ++ "connection refused") ∧
    (start_backend envLaunchFail ⟨false, none⟩).2.1.started = true ∧
    start_backend envLaunchFail (start_backend envLaunchFail ⟨false, none⟩).2.1 =
      (.ok (), (start_backend envLaunchFail ⟨false, none⟩).2.1, []) :=
  C2_flag_set_despite_failure envLaunchFail envLaunchFail ⟨false, none⟩ rfl rfl
    "/home/backend" rfl 7 rfl "connection refused" rfl

/-! ### C5: shutdown without an owned handle -/

/-- C5: `cleanup_backend` invoked when no child handle is owned attempts no
kill, owns no handle afterwards, leaves the lifecycle phase at `NotStarted`,
and — when the state already was `NotStarted` — is the identity (a strict
no-op); handle ownership is the sole trigger of termination. -/
theorem C5_shutdown_no_handle (s : BackendState) (h : s.handle = none) :
    (cleanup_backend s).2 = false ∧
    (cleanup_backend s).1.handle = none ∧
    (cleanup_backend s).1.phase = Phase.NotStarted ∧
    (s.phase = Phase.NotStarted → cleanup_backend s = (s, false)) := by
  rcases s with ⟨st, hd⟩
  cases hd with
  | some c => exact absurd h (by simp)
  | none =>
    refine ⟨rfl, rfl, rfl, ?_⟩
    intro hph
    have hst : st = false := by
      cases st
      · rfl
      · simp [BackendState.phase] at hph
    subst hst
    rfl

/-- C5 witness: the theorem at the `NotStarted` state with no handle. -/
theorem C5_witness :
    (cleanup_backend ⟨false, none⟩).2 = false ∧
    (cleanup_backend ⟨false, none⟩).1.handle = none ∧
    (cleanup_backend ⟨false, none⟩).1.phase = Phase.NotStarted ∧
    ((⟨false, none⟩ : BackendState).phase = Phase.NotStarted →
      cleanup_backend ⟨false, none⟩ = (⟨false, none⟩, false)) :=
  C5_shutdown_no_handle ⟨false, none⟩ rfl

/-! ### C7: idempotence after first success -/

/-- C7: once the confirmed flag is set, `start_backend` returns success
immediately, changes nothing and performs no probe, launch or re-probe; and
after any successful run, a second run in immediate succession performs no
action at all — at most one probe-then-launch sequence happens. -/
theorem C7_idempotent_after_success :
    (∀ (env : Env) (s : BackendState), s.started = true →
      start_backend env s = (.ok (), s, [])) ∧
    (∀ (env1 env2 : Env) (s : BackendState),
      (start_backend env1 s).1 = .ok () →
      start_backend env2 (start_backend env1 s).2.1 =
        (.ok (), (start_backend env1 s).2.1, [])) := by
  constructor
  · intro env s h
    simp [start_backend, h]
  · intro env1 env2 s h
    have hs := start_backend_ok_started env1 s h
    rcases hsb : start_backend env1 s with ⟨r, s1, ev⟩
    rw [hsb] at hs
    simp only at hs
    simp [start_backend, hs]

/-- C7 witness: the fast path at a confirmed state, and the second of two
immediate invocations after a successful probe doing nothing. -/
theorem C7_witness :
    start_backend envProbeOk ⟨true, none⟩ = (.ok (), ⟨true, none⟩, []) ∧
    start_backend envProbeOk (start_backend envProbeOk ⟨false, none⟩).2.1 =
      (.ok (), (start_backend envProbeOk ⟨false, none⟩).2.1, []) :=
  ⟨C7_idempotent_after_success.1 envProbeOk ⟨true, none⟩ rfl,
   C7_idempotent_after_success.2 envProbeOk envProbeOk ⟨false, none⟩ rfl⟩

/-! ### C8: backend directory selection -/

/-- C8: when the initial probe fails, the candidate directories are, in
order, the bundled-resources path, the parent-of-current-directory path, the
current-directory path and `../backend`; any spawned directory is the first
existing candidate, and when none exists `start_backend` fails with the
backend-not-found error, leaves the state unchanged, and launches nothing
(the only emitted event is the probe). -/
theorem C8_backend_path_selection (env : Env) (s : BackendState)
    (hs : s.started = false) (hp : env.probeOk = false) :
    candidatePaths env.cwd env.parentDir =
      [env.cwd ++ "/Contents/Resources/backend",
       env.parentDir ++ "/backend",
       env.cwd ++ "/backend",
       env.cwd ++ "/../backend"] ∧
    (∀ dir : String, Event.spawn dir ∈ (start_backend env s).2.2 →
      (candidatePaths env.cwd env.parentDir).find? env.pathExists = some dir) ∧
    ((candidatePaths env.cwd env.parentDir).find? env.pathExists = none →
      start_backend env s = (.error backendNotFoundMsg, s, [Event.probe])) := by
  refine ⟨rfl, ?_, ?_⟩
  · intro dir hmem
    rcases hfind : (candidatePaths env.cwd env.parentDir).find? env.pathExists with _ | d
    · simp [start_backend, hs, hp, hfind] at hmem
    · rcases hspawn : env.spawnResult with e | child
      · simp [start_backend, hs, hp, hfind, hspawn] at hmem
        subst hmem
        rfl
      · rcases hre : env.reprobeErr with _ | e
        · simp [start_backend, hs, hp, hfind, hspawn, hre] at hmem
          subst hmem
          rfl
        · simp [start_backend, hs, hp, hfind, hspawn, hre] at hmem
          subst hmem
          rfl
  · intro hfind
    simp [start_backend, hs, hp, hfind]

/-- C8 witness: with no existing candidate, the run fails with the
backend-not-found error and spawns nothing. -/
theorem C8_witness :
    start_backend envNotFound ⟨false, none⟩ =
      (.error backendNotFoundMsg, (⟨false, none⟩ : BackendState), [Event.probe]) :=
  (C8_backend_path_selection envNotFound ⟨false, none⟩ rfl rfl).2.2 rfl

/-! ### C1: a success response with an unparseable body -/

/-- A call environment whose backend is reachable and whose HTTP exchange
returns a success status with a body that fails to parse as JSON. -/
def cenvParseFail : CallEnv :=
  ⟨envProbeOk, .response true "200 OK" (.error "invalid json") none⟩

/-- A call environment whose backend is reachable and whose HTTP exchange
returns a failing status with a readable body. -/
def cenvHttpErr : CallEnv :=
  ⟨envProbeOk, .response false "404 Not Found" (.error "unused") (some "missing")⟩

/-- C1 counterexample: on a success-status response whose body fails to
parse, `call_backend_api` returns the command-level fault
`Err("invalid json")` — not the normalised
`ApiResult{success:false, error:"invalid json"}` the claim asserts; the `?`
on the JSON decode propagates the failure to the caller. -/
theorem C1_counterexample :
    (call_backend_api cenvParseFail ⟨true, none⟩ "/status" none none none).1 =
      .error "invalid json" ∧
    (call_backend_api cenvParseFail ⟨true, none⟩ "/status" none none none).1 ≠
      .ok ⟨false, none, some "invalid json"⟩ :=
  ⟨rfl, fun h => Except.noConfusion h⟩

/-- C1 (amended): for every call that receives a success-status response
whose body cannot be parsed as JSON, `call_backend_api` returns the
command-level error `Err(<parse error text>)` — the parse failure propagates
to the caller as a fault of the command rather than as a normalized
`ApiResult`. -/
theorem C1_parse_failure_propagates (cenv : CallEnv) (s : BackendState)
    (endpoint : String) (data : Option Json) (authToken tokenAlt : Option String)
    (hok : (start_backend cenv.env s).1 = .ok ())
    (statusText e : String) (bodyText : Option String)
    (hout : cenv.outcome = .response true statusText (.error e) bodyText) :
    (call_backend_api cenv s endpoint data authToken tokenAlt).1 = .error e := by
  rcases hsb : start_backend cenv.env s with ⟨r, s1, ev⟩
  rw [hsb] at hok
  simp only at hok
  subst hok
  simp [call_backend_api, hsb, hout, handleResponse]

/-- C1 witness: the amended theorem at the concrete parse-failure
environment. -/
theorem C1_witness :
    (call_backend_api cenvParseFail ⟨true, none⟩ "/status" none none none).1 =
      .error "invalid json" :=
  C1_parse_failure_propagates cenvParseFail ⟨true, none⟩ "/status" none none none
    rfl "200 OK" "invalid json" none rfl

/-! ### C9: HTTP failure statuses are normalised with status and body -/

/-- C9: every response whose status denotes failure is normalised to
`ApiResult{success:false, error:"HTTP <status>: <body text>"}`, where the
body text is read best-effort and an unreadable body contributes the empty
string. -/
theorem C9_http_error_shape (cenv : CallEnv) (s : BackendState)
    (endpoint : String) (data : Option Json) (authToken tokenAlt : Option String)
    (hok : (start_backend cenv.env s).1 = .ok ())
    (statusText : String) (parsed : Except String Json) (bodyText : Option String)
    (hout : cenv.outcome = .response false statusText parsed bodyText) :
    (call_backend_api cenv s endpoint data authToken tokenAlt).1 =
      .ok ⟨false, none, some ("HTTP " ++ statusText ++ ": " ++ bodyText.getD "")⟩ := by
  rcases hsb : start_backend cenv.env s with ⟨r, s1, ev⟩
  rw [hsb] at hok
  simp only at hok
  subst hok
  simp [call_backend_api, hsb, hout, handleResponse]

/-- C9 witness: a 404 with body "missing" is normalised to
`HTTP 404 Not Found: missing`; a second application shows an unreadable body
contributing the empty string. -/
theorem C9_witness :
    (call_backend_api cenvHttpErr ⟨true, none⟩ "/x" none none none).1 =
      .ok ⟨false, none, some ("HTTP " ++ "404 Not Found" ++ ": " ++
        (some "missing").getD "")⟩ :=
  C9_http_error_shape cenvHttpErr ⟨true, none⟩ "/x" none none none rfl
    "404 Not Found" (.error "unused") (some "missing") rfl

end BendBionics
